import Mathlib

/-!
Shallow embedding of the `zebra` printer tool (files `src/zebra/zeb.py`,
`src/zebra/system.py`, `src/zebra/__main__.py`) and verification of the
specification claims.

Modelling conventions:
* External commands are oracles collected in a `World` record; an
  invocation either `raised` inside the runner or `completed` with an exit
  status, stdout and stderr.
* Python string builtins (`split`, `rsplit`, `strip`, `replace`,
  `splitlines`, substring `in`) are modelled on `List Char` with
  structural recursion so that every definition evaluates by `rfl`.
* Fallible Python code returns `PyRes`: `ok` for a normal return, `exn`
  for an uncaught exception, `hang` for the interactive retry loops that
  never receive a valid answer.
* Side effects (queue registration, cups restart, udev rule file,
  environment writes, device-node writes/reads, sleeps) are recorded in a
  `List Effect` trace.
* `float(...)` is modelled on plain decimal literals (optional sign,
  digits, optional fraction); the config values exercised by the claims
  are all of this shape.  A parsed value `PyVal.num m s` denotes
  `m * 10 ^ (-s)` with the fraction stored trailing-zero normalised.
* The `environment.py` and `log.py` modules are not under `src/`.
  Logging is effect-free and dropped.  `Environment.set_variable` is
  modelled from the spec (a persisted key/value store write) as the
  `Effect.setEnvVar` trace entry, and `Environment.ENV_VARIABLES` as the
  `World.appEnv` map.
-/

namespace Spec2Proof

/-- ASCII whitespace as stripped by Python default `strip`/`split`. -/
def isWs (c : Char) : Bool := c == ' ' || c == '\t' || c == '\n' || c == '\r'

/-- Python `s.strip()` on a character list. -/
def stripWsL (l : List Char) : List Char :=
  ((l.dropWhile isWs).reverse.dropWhile isWs).reverse

/-- Python `s.strip()`. -/
def pyStripWs (s : String) : String := ⟨stripWsL s.data⟩

/-- Python `s.rstrip()`. -/
def pyRstripWs (s : String) : String := ⟨(s.data.reverse.dropWhile isWs).reverse⟩

/-- Python `s.strip(chars)`: removes leading and trailing characters drawn
from the character SET `cs` (not a prefix/suffix strip). -/
def stripSetL (cs l : List Char) : List Char :=
  ((l.dropWhile (cs.contains ·)).reverse.dropWhile (cs.contains ·)).reverse

/-- Python `s.strip(chars)` on strings. -/
def pyStripSet (s cs : String) : String := ⟨stripSetL cs.data s.data⟩

/-- Boolean prefix test on character lists. -/
def prefixOfL : List Char → List Char → Bool
  | [], _ => true
  | _ :: _, [] => false
  | a :: p, b :: l => a == b && prefixOfL p l

/-- Python substring test `pat in hay` on character lists. -/
def containsSeq : List Char → List Char → Bool
  | [], pat => pat.isEmpty
  | b :: l, pat => prefixOfL pat (b :: l) || containsSeq l pat

/-- Python substring test `needle in hay`. -/
def pyContains (hay needle : String) : Bool := containsSeq hay.data needle.data

/-- `s.startswith(p)` (used for the Lean side of `f.startswith("lp")`). -/
def startsWithL (s p : String) : Bool := prefixOfL p.data s.data

/-- Fuelled worker for Python `str.split(sep)` with a non-empty literal
separator: leftmost non-overlapping occurrences, empty pieces kept.  The
fuel is the length of the input, which bounds the number of steps. -/
def splitFuel (sep : List Char) : Nat → List Char → List (List Char)
  | _, [] => [[]]
  | 0, l => [l]
  | f + 1, c :: t =>
    if prefixOfL sep (c :: t) then
      [] :: splitFuel sep f ((c :: t).drop sep.length)
    else
      match splitFuel sep f t with
      | [] => [[c]]
      | a :: r => (c :: a) :: r

/-- Python `str.split(sep)` on character lists (callers never pass an
empty separator; Python would raise there). -/
def pySplitL (sep l : List Char) : List (List Char) :=
  if sep.isEmpty then [l] else splitFuel sep l.length l

/-- Python `s.split(sep)`. -/
def pySplit (s sep : String) : List String :=
  (pySplitL sep.data s.data).map (fun l => ⟨l⟩)

/-- Join with a separator, structurally. -/
def intercalateL (sep : List Char) : List (List Char) → List Char
  | [] => []
  | [a] => a
  | a :: r => a ++ sep ++ intercalateL sep r

/-- Python `s.split(sep, maxsplit=1)`. -/
def pySplit1 (s sep : String) : List String :=
  match pySplitL sep.data s.data with
  | [] => [s]
  | [a] => [⟨a⟩]
  | a :: r => [⟨a⟩, ⟨intercalateL sep.data r⟩]

/-- Python `s.replace(a, b)` (all non-overlapping occurrences, left to
right; callers never pass an empty `a`). -/
def pyReplace (s a b : String) : String :=
  ⟨intercalateL b.data (pySplitL a.data s.data)⟩

/-- Worker for Python whitespace `str.split()`: tokens are maximal runs of
non-whitespace, no empty tokens.  `cur` is the current token reversed. -/
def wsTokensAux : List Char → List Char → List (List Char)
  | cur, [] => if cur.isEmpty then [] else [cur.reverse]
  | cur, c :: t =>
    if isWs c then
      if cur.isEmpty then wsTokensAux [] t else cur.reverse :: wsTokensAux [] t
    else wsTokensAux (c :: cur) t

/-- Python `s.split()` (whitespace split, empties dropped). -/
def pyWsTokens (s : String) : List String :=
  (wsTokensAux [] s.data).map (fun l => ⟨l⟩)

/-- `s.rsplit(maxsplit=1)[-1]` / `s.split()[-1]`: the last whitespace
token, if any. -/
def lastWsToken (s : String) : Option String := (pyWsTokens s).getLast?

/-- Python `s.splitlines()` for `\n`-separated text: like splitting on
`\n` but without a trailing empty line. -/
def pySplitlines (s : String) : List String :=
  let ps := pySplit s "\n"
  match ps.getLast? with
  | some last => if last = "" then ps.dropLast else ps
  | none => ps

/-- `s.split(":", maxsplit=1)[0]`: the text before the first colon, the
whole string when there is none. -/
def beforeFirstColon (s : String) : String :=
  match pySplit1 s ":" with
  | a :: _ => a
  | [] => s

/-- `s.rsplit("=", maxsplit=1)[-1]` (also `s.split("=")[-1]`): the text
after the last `=`, the whole string when there is none. -/
def afterLastEq (s : String) : String :=
  match (pySplit s "=").getLast? with
  | some a => a
  | none => s

/-- Decimal digits to a natural number. -/
def digitsToNat (l : List Char) : Nat :=
  l.foldl (fun a c => a * 10 + (c.toNat - 48)) 0

/-- Drop trailing `'0'` characters of a fraction part. -/
def stripTrailingZeros (l : List Char) : List Char :=
  (l.reverse.dropWhile (· == '0')).reverse

/-- Python `float(s)` on plain decimal literals: optional surrounding
whitespace, optional sign, digits with an optional fractional part (at
least one digit overall).  Returns the value as a normalised pair
`(mantissa, scale)` denoting `mantissa * 10 ^ (-scale)`; other float
syntax (exponents, inf/nan, underscores) is outside the inputs this code
meets and is mapped to `none`. -/
def pyFloat (s : String) : Option (Int × Nat) :=
  let l := stripWsL s.data
  let (neg, l) :=
    match l with
    | '+' :: r => (false, r)
    | '-' :: r => (true, r)
    | r => (false, r)
  let ip := l.takeWhile Char.isDigit
  let rest := l.dropWhile Char.isDigit
  let mk : Nat → Nat → Option (Int × Nat) := fun m sc =>
    some (if neg then -(m : Int) else (m : Int), sc)
  match rest with
  | [] => if ip.isEmpty then none else mk (digitsToNat ip) 0
  | '.' :: fr =>
    if fr.all Char.isDigit && !(ip.isEmpty && fr.isEmpty) then
      let fz := stripTrailingZeros fr
      mk (digitsToNat (ip ++ fz)) fz.length
    else none
  | _ => none

/-- Python exceptions that the modelled code can raise. -/
inductive PyErr where
  | typeError
  | valueError
  | attributeError
  | indexError
  | keyError
  | osError
  | exception
deriving DecidableEq, Repr

/-- Outcome of running a piece of Python code: a value, an uncaught
exception, or an interactive loop that never terminates. -/
inductive PyRes (α : Type) where
  | ok (a : α)
  | exn (e : PyErr)
  | hang
deriving DecidableEq, Repr

/-- A parsed configuration value: a float (as a normalised decimal
`mantissa * 10 ^ (-scale)`) or the original text. -/
inductive PyVal where
  | num (mantissa : Int) (scale : Nat)
  | str (v : String)
deriving DecidableEq, Repr

/-- What the operating system did with one external command invocation:
the spawn itself raised (missing binary, timeout, ...) or the command
completed with a status and captured streams. -/
inductive ExecOutcome where
  | raised
  | completed (status : Int) (out err : String)
deriving DecidableEq, Repr

/-- `system.system_command` (src/zebra/system.py lines 82-102): wraps the
invocation in `try/except Exception`, returning `(-1, None, None)` when
the spawn raised and `(status, stdout, stderr)` otherwise. -/
def systemCommand : ExecOutcome → Int × Option String × Option String
  | .raised => (-1, none, none)
  | .completed st o e => (st, some o, some e)

/-- Oracles for every external interaction the code performs.
`udevadmInfo f` answers `udevadm info -a /dev/usb/f`; `udevadmGrep f sn`
is the exit status of `udevadm info -a /dev/usb/f | grep sn`;
`catRead p` is the `(status, stdout, stderr)` of `timeout 1s cat p`;
`lsusbPipe` is the decoded stdout of the `lsusb | grep ... | grep -oP`
pipeline; `osEnv` is `os.environ`; `appEnv` is
`Environment.ENV_VARIABLES` (modelled from the spec, see header);
`opInputs` are the operator's successive prompt answers. -/
structure World where
  lpinfoExec : ExecOutcome
  lpstatExec : ExecOutcome
  devUsb : Option (List String)
  udevadmInfo : String → ExecOutcome
  udevadmGrep : String → String → Int
  catRead : String → Int × String × String
  lsusbPipe : String
  rulesFileExists : Bool
  osEnv : String → Option String
  appEnv : String → Option String
  opInputs : List String

/-- Side effects recorded by the embedding.  `setEnvVar` is
`Environment.set_variable`, modelled from the spec as a key/value store
write.  `testPrint` marks the trailing install-verification call
`Zebra(serial, vid, pid).test_print()`; its own internal reads and
spooler submission are outside every claim and are abstracted by this
single marker. -/
inductive Effect where
  | writeDev (path payload : String)
  | sleepMs (n : Nat)
  | readDev (path : String) (timeoutMs : Nat)
  | registerQueue (queueName uri : String)
  | restartCups
  | writeRulesFile (vid : String)
  | reloadUdev
  | setEnvVar (key value : String)
  | testPrint (sn vid pid : String)
deriving DecidableEq, Repr

/-- The state a `Zebra` object holds after `__init__`
(src/zebra/zeb.py lines 158-189). -/
structure Session where
  serial_number : String
  name : Option String
  vid : String
  pid : String
  lp_path : Option String
deriving DecidableEq, Repr

/-- One value of the dict built by `Zebra.connected_printers`
(src/zebra/zeb.py lines 86-130).  `installedSet` records whether the
`"installed"` key was ever written (it is only set inside the matching
`/dev/usb` probe). -/
structure PrinterRec where
  uri : String
  lp : String
  name : String
  sn : String
  installedSet : Bool
  installed : Option String
deriving DecidableEq, Repr

/-- Insert-or-replace for the association lists that model Python dicts:
an existing key keeps its position, a new key is appended. -/
def upsertBy {β : Type} (l : List (String × β)) (k : String) (v : β) :
    List (String × β) :=
  if l.any (fun kv => kv.1 == k) then
    l.map (fun kv => if kv.1 == k then (k, v) else kv)
  else l ++ [(k, v)]

namespace Zebra

/-- One line of the `^XA^HH^XZ` config table
(src/zebra/zeb.py lines 200-218): split on two spaces, drop empty
fields, drop the LAST remaining field (`[:-1]`); with exactly two fields
left they are (value, label); with exactly three the first is discarded;
anything else contributes nothing.  The value is `float(...)` when that
parses, else the raw text; the label is stripped. -/
def configLineEntry (line : String) : Option (String × PyVal) :=
  let values := ((pySplit line "  ").filter (fun v => v != "")).dropLast
  match values with
  | [a, b] =>
    some (pyStripWs b,
      match pyFloat a with
      | some (m, sc) => PyVal.num m sc
      | none => PyVal.str a)
  | [_, a, b] =>
    some (pyStripWs b,
      match pyFloat a with
      | some (m, sc) => PyVal.num m sc
      | none => PyVal.str a)
  | _ => none

/-- The dict accumulated by `get_config` over the lines of the response
(src/zebra/zeb.py lines 200-219). -/
def parseConfig (s : String) : List (String × PyVal) :=
  (pySplit s "\n").foldl
    (fun acc line =>
      match configLineEntry line with
      | some (k, v) => upsertBy acc k v
      | none => acc) []

/-- `Zebra.command` (src/zebra/zeb.py lines 221-239): with no resolved
device path, log and return `(-1, None, None)` with no I/O.  Otherwise
write `^XA^XZ` to the node, sleep 100 ms, write the payload, then read
the node back through `timeout 1s cat` in a separate invocation and
return that read's `(status, stdout, stderr)`.  The first component is
the returned triple, the second the ordered effect trace. -/
def command (lp_path : Option String) (zpl : String) (w : World) :
    (Int × Option String × Option String) × List Effect :=
  match lp_path with
  | none => ((-1, none, none), [])
  | some p =>
    let r := w.catRead p
    ((r.1, some r.2.1, some r.2.2),
     [Effect.writeDev p "^XA^XZ", Effect.sleepMs 100,
      Effect.writeDev p zpl, Effect.readDev p 1000])

/-- `Zebra.get_config` (src/zebra/zeb.py lines 191-219): sends
`^XA^HH^XZ`, returns `None` unless the raw status equals 124, else
parses the table.  (A 124 status with a `None` stdout would raise an
`AttributeError` on `.split`; the runner never produces that pair.) -/
def get_config (lp_path : Option String) (w : World) :
    PyRes (Option (List (String × PyVal))) :=
  let r := (command lp_path "^XA^HH^XZ" w).1
  if r.1 = 124 then
    match r.2.1 with
    | some s => .ok (some (parseConfig s))
    | none => .exn .attributeError
  else .ok none

/-- `Zebra.get_printer_name` (src/zebra/zeb.py lines 417-441): look the
serial up in `lpstat -v`; absent serial gives `None`; a found line is
rstripped and the queue name is the last whitespace token before the
first colon; the defensive `raise Exception` fires when no (non-falsy)
line matched. -/
def getPrinterName (w : World) (sn : String) : PyRes (Option String) :=
  match (systemCommand w.lpstatExec).2.1 with
  | none => .exn .typeError
  | some t =>
    if pyContains t sn then
      let printers := (pySplit t "\n").filter (fun p => p != "")
      match printers.find? (fun p => pyContains p sn) with
      | some line =>
        let my := pyRstripWs line
        if my = "" then .exn .exception
        else
          match lastWsToken (beforeFirstColon my) with
          | some nm => .ok (some nm)
          | none => .exn .indexError
      | none => .exn .exception
    else .ok none

/-- The serial/vid/pid actually used by `Zebra.__init__`
(src/zebra/zeb.py lines 158-164): an empty serial falls back to
`os.environ["MFG_PRINTER"]`, unpacked on `-` when a dash is present. -/
def resolveSerial (sn vid pid : String) (w : World) :
    PyRes (String × String × String) :=
  if sn = "" then
    match w.osEnv "MFG_PRINTER" with
    | none => .exn .keyError
    | some ev =>
      if pyContains ev "-" then
        match pySplit ev "-" with
        | [s, v, p] => .ok (s, v, p)
        | _ => .exn .valueError
      else .ok (ev, vid, pid)
  else .ok (sn, vid, pid)

/-- The `/dev/usb` scan of `Zebra.__init__`
(src/zebra/zeb.py lines 171-189): a missing directory
(`FileNotFoundError`) is caught and leaves the path empty; otherwise
every entry starting with `lp` whose `udevadm info ... | grep serial`
exits 0 OVERWRITES `lp_path` (the loop has no `break`). -/
def lpResolve (sn : String) (w : World) : Option String :=
  match w.devUsb with
  | none => none
  | some fs =>
    fs.foldl
      (fun acc f =>
        if startsWithL f "lp" && (w.udevadmGrep f sn == 0) then
          some ("/dev/usb/" ++ f)
        else acc) none

/-- `Zebra.__init__` (src/zebra/zeb.py lines 158-189). -/
def init (sn vid pid : String) (w : World) : PyRes Session :=
  match resolveSerial sn vid pid w with
  | .exn e => .exn e
  | .hang => .hang
  | .ok (s, v, p) =>
    match getPrinterName w s with
    | .exn e => .exn e
    | .hang => .hang
    | .ok nm =>
      .ok { serial_number := s, name := nm, vid := v, pid := p,
            lp_path := lpResolve s w }

/-- Hex digit test for `int(s, 16)`. -/
def isHexChar (c : Char) : Bool :=
  c.isDigit || (97 ≤ c.toNat && c.toNat ≤ 102) || (65 ≤ c.toNat && c.toNat ≤ 70)

/-- Python `int(s, 16)` (modelled on plain hex literals with optional
sign and `0x` marker); `none` is a `ValueError`. -/
def pyIntHex (s : String) : Option Nat :=
  let l := stripWsL s.data
  let l :=
    match l with
    | '+' :: r => r
    | '-' :: r => r
    | r => r
  let l :=
    if prefixOfL ['0', 'x'] l || prefixOfL ['0', 'X'] l then l.drop 2 else l
  if l.isEmpty then none
  else if l.all isHexChar then
    some (l.foldl (fun a c =>
      a * 16 + (if c.isDigit then c.toNat - 48
                else if 97 ≤ c.toNat then c.toNat - 87 else c.toNat - 55)) 0)
  else none

/-- `Zebra.is_connected` (src/zebra/zeb.py lines 311-333): a substring
test of the serial against `lpinfo --include-schemes usb -v`; with both
vid and pid non-empty the USB reset is attempted best-effort (the reset
failure is swallowed; only the `int(_, 16)` conversions can raise). -/
def is_connected (z : Session) (w : World) : PyRes Bool :=
  match (systemCommand w.lpinfoExec).2.1 with
  | none => .exn .typeError
  | some t =>
    if pyContains t z.serial_number then
      if z.vid != "" && z.pid != "" then
        match pyIntHex z.vid, pyIntHex z.pid with
        | some _, some _ => .ok true
        | _, _ => .exn .valueError
      else .ok true
    else .ok false

/-- The unpack-construct-check chain of `Zebra.connect`
(src/zebra/zeb.py lines 147-150): a value that does not split on `-`
into exactly three fields makes the unpacking raise `ValueError`. -/
def connectTriple (v : String) (w : World) : PyRes (Option Session) :=
  match pySplit v "-" with
  | [sn, vid, pid] =>
    match init sn vid pid w with
    | .exn e => .exn e
    | .hang => .hang
    | .ok z =>
      match is_connected z w with
      | .exn e => .exn e
      | .hang => .hang
      | .ok true => .ok (some z)
      | .ok false => .ok none
  | _ => .exn .valueError

/-- The body of `Zebra.connect` inside the `try`
(src/zebra/zeb.py lines 146-150). -/
def connectBody (printer : String) (w : World) : PyRes (Option Session) :=
  match w.osEnv printer with
  | none => .exn .keyError
  | some v => connectTriple v w

/-- `Zebra.connect` (src/zebra/zeb.py lines 132-156): only `KeyError`
is caught (logged, `None` returned); every other exception escapes. -/
def connect (printer : String) (w : World) : PyRes (Option Session) :=
  match connectBody printer w with
  | .exn .keyError => .ok none
  | r => r

/-- The `re.search("product.*ZTC", x)` test used while naming a probed
device (src/zebra/zeb.py line 117): some occurrence of `product`
followed (anywhere later) by `ZTC`. -/
def productZTC (x : String) : Bool :=
  match pySplitL ("product".data) x.data with
  | _ :: r :: rs => containsSeq (intercalateL ("product".data) (r :: rs)) ("ZTC".data)
  | _ => false

/-- Whether a serial is recorded under a role key of the environment
store (src/zebra/zeb.py lines 123-126): `sn in ENV_VARIABLES.get(role, [])`. -/
def roleHit (w : World) (role sn : String) : Bool :=
  match w.appEnv role with
  | some v => pyContains v sn
  | none => false

/-- One `/dev/usb` entry probe of `Zebra.connected_printers`
(src/zebra/zeb.py lines 104-128): entries not starting with `lp` are
skipped; a runner failure leaves stdout `None` and the `in` test raises
`TypeError`; a matching dump records the node path, the product name
(the `[0]` on no matching line raises `IndexError`), and the installed
role.  The loop does not break, so later matches overwrite. -/
def probeEntry (w : World) (sn f : String) (rec : PrinterRec) : PyRes PrinterRec :=
  if startsWithL f "lp" then
    match (systemCommand (w.udevadmInfo f)).2.1 with
    | none => .exn .typeError
    | some out =>
      if pyContains out sn then
        let rec1 := { rec with lp := "/dev/usb/" ++ f }
        match ((pySplitlines out).filter productZTC).head? with
        | none => .exn .indexError
        | some nameLine =>
          let rec2 :=
            if nameLine != "" then { rec1 with name := afterLastEq nameLine }
            else rec1
          let role :=
            if roleHit w "MFG_PRINTER" sn then some "MFG_PRINTER"
            else if roleHit w "MFG_PRINTER_XXL" sn then some "MFG_PRINTER_XXL"
            else none
          .ok { rec2 with installedSet := true, installed := role }
      else .ok rec
  else .ok rec

/-- One device line of `Zebra.connected_printers`
(src/zebra/zeb.py lines 94-129): Zebra-marked lines contribute a record
keyed by the text after the last `=`; `os.listdir("/dev/usb/")` raising
here is NOT caught. -/
def connectedStep (w : World) (acc : PyRes (List (String × PrinterRec)))
    (dev : String) : PyRes (List (String × PrinterRec)) :=
  match acc with
  | .exn e => .exn e
  | .hang => .hang
  | .ok m =>
    if pyContains dev "Zebra" then
      let sn := afterLastEq dev
      match lastWsToken dev with
      | none => .exn .indexError
      | some uriTok =>
        let rec0 : PrinterRec :=
          { uri := uriTok, lp := "", name := "", sn := sn,
            installedSet := false, installed := none }
        match w.devUsb with
        | none => .exn .osError
        | some fs =>
          match fs.foldl
              (fun (r : PyRes PrinterRec) f =>
                match r with
                | .ok rc => probeEntry w sn f rc
                | other => other) (.ok rec0) with
          | .ok recF => .ok (upsertBy m sn recF)
          | .exn e => .exn e
          | .hang => .hang
    else .ok m

/-- `Zebra.connected_printers` (src/zebra/zeb.py lines 86-130): the
runner's stdout is `.strip().split("\n")`-ed — a `None` stdout (runner
caught an exception) raises `AttributeError` right there. -/
def connected_printers (w : World) : PyRes (List (String × PrinterRec)) :=
  match (systemCommand w.lpinfoExec).2.1 with
  | none => .exn .attributeError
  | some raw => (pySplit (pyStripWs raw) "\n").foldl (connectedStep w) (.ok [])

/-- `Prompt.choose` (src/zebra/prompt.py lines 102-126) reduced to its
observable result: the first operator input that is one of the options;
no valid input means the loop never exits. -/
def firstValid (inputs opts : List String) : Option String :=
  inputs.find? (fun i => opts.contains i)

/-- `Zebra.choose_printer` (src/zebra/zeb.py lines 54-84).  With exactly
one printer, `next(iter(dict))` yields the serial KEY (a string) and
`printer_of_choice["sn"]` subscripts that string with a string: a
`TypeError`.  With several printers the operator picks from the
hard-coded options `["1", "2"]`; line 81 tests the truthy method object
`zebra.is_connected` (no call), so the `None` return there is dead. -/
def choose_printer (w : World) : PyRes (Option Session) :=
  match connected_printers w with
  | .exn e => .exn e
  | .hang => .hang
  | .ok cp =>
    match cp with
    | [] => .ok none
    | [_] => .exn .typeError
    | _ :: _ :: _ =>
      match firstValid w.opInputs ["1", "2"] with
      | none => .hang
      | some u =>
        let idx := if u = "1" then 0 else 1
        match cp.get? idx with
        | none => .exn .indexError
        | some kv =>
          match init kv.2.sn "" "" w with
          | .exn e => .exn e
          | .hang => .hang
          | .ok z => .ok (some z)

/-- ASCII `str.lower()`. -/
def pyLower (s : String) : String :=
  ⟨s.data.map (fun c =>
    if 65 ≤ c.toNat && c.toNat ≤ 90 then Char.ofNat (c.toNat + 32) else c)⟩

/-- The installer's classification prompt loop
(src/zebra/zeb.py lines 397-409): the first input lowering to `r` picks
the regular (primary) role, to `s` the supplementary one; anything else
re-prompts forever. -/
def firstRS (inputs : List String) : Option Bool :=
  inputs.findSome? (fun i =>
    if pyLower i = "r" then some false
    else if pyLower i = "s" then some true
    else none)

/-- The non-empty Zebra-marked lines of the `lpinfo` output
(src/zebra/zeb.py lines 346-347). -/
def zebraLines (out : String) : List String :=
  ((pySplit out "\n").filter (fun v => v != "")).filter
    (fun k => pyContains k "Zebra")

/-- `Zebra.install_printer` after the single-candidate check
(src/zebra/zeb.py lines 361-415): extract serial (`split("serial=")[1]`),
URI, and hyphen-normalised model; empty serial aborts; a serial absent
from `lpstat -v` registers the queue `model-serial` and restarts cups;
vid/pid come from unpacking the lsusb pipeline output on `:`
(`ValueError` when not exactly two fields); a missing rules file is
written once; the operator chooses the role; the `serial-vid-pid`
binding is persisted and a test print issued. -/
def installRest (line : String) (w : World) : PyRes Bool × List Effect :=
  match (pySplit line "serial=").get? 1 with
  | none => (.exn .indexError, [])
  | some serial =>
    match (pySplit1 line "usb://").get? 1 with
    | none => (.exn .indexError, [])
    | some uriTail =>
      let uri := "usb://" ++ uriTail
      let m1 :=
        match (pySplit1 uri "usb://").getLast? with
        | some x => x
        | none => ""
      let model0 :=
        match pySplit1 m1 "?" with
        | a :: _ => a
        | [] => ""
      let model := pyReplace (pyReplace model0 "%20" "-") "/" "-"
      if serial = "" then (.ok false, [])
      else
        match (systemCommand w.lpstatExec).2.1 with
        | none => (.exn .typeError, [])
        | some stat =>
          let effs1 :=
            if pyContains stat serial then []
            else [Effect.registerQueue (model ++ "-" ++ serial) uri,
                  Effect.restartCups, Effect.sleepMs 2000]
          match pySplit (pyStripWs w.lsusbPipe) ":" with
          | [vid, pid] =>
            let effs2 := effs1 ++
              (if w.rulesFileExists then []
               else [Effect.writeRulesFile vid, Effect.reloadUdev])
            match firstRS w.opInputs with
            | none => (.hang, effs2)
            | some isSupp =>
              let key := if isSupp then "MFG_PRINTER_XXL" else "MFG_PRINTER"
              (.ok true, effs2 ++
                [Effect.setEnvVar key (serial ++ "-" ++ vid ++ "-" ++ pid),
                 Effect.testPrint serial vid pid])
          | _ => (.exn .valueError, effs1)

/-- The candidate-count dispatch of `Zebra.install_printer`
(src/zebra/zeb.py lines 346-359): zero or more than one Zebra-marked
line aborts with `False` before any side effect. -/
def installBody (out : String) (w : World) : PyRes Bool × List Effect :=
  match zebraLines out with
  | [] => (.ok false, [])
  | [line] => installRest line w
  | _ :: _ :: _ => (.ok false, [])

/-- `Zebra.install_printer` (src/zebra/zeb.py lines 335-415): a `None`
stdout raises on `.split`. -/
def install (w : World) : PyRes Bool × List Effect :=
  match (systemCommand w.lpinfoExec).2.1 with
  | none => (.exn .attributeError, [])
  | some out => installBody out w

end Zebra

/-- The marker filter of `__main__.Zebra.installed_printers`
(src/zebra/__main__.py line 27). -/
def markerHit (device : String) : Bool :=
  pyContains device "Zebra" || pyContains device "ZTC" || pyContains device "ZPL"

/-- The pattern `usb://` of the regex `usb://[^ ]*`. -/
def usbPat : List Char := "usb://".data

/-- `re.search(r"usb://[^ ]*", device)` (src/zebra/__main__.py line 34):
the match starts at the FIRST occurrence of `usb://` and greedily takes
following characters that are not a space (U+0020 only; tabs and other
whitespace are `[^ ]`). -/
def reSearchUsb : List Char → Option (List Char)
  | [] => none
  | c :: t =>
    if prefixOfL usbPat (c :: t) then
      some (usbPat ++ ((c :: t).drop usbPat.length).takeWhile (fun x => x != ' '))
    else reSearchUsb t

/-- String wrapper of `reSearchUsb`. -/
def reSearchUsbS (s : String) : Option String :=
  (reSearchUsb s.data).map (fun l => ⟨l⟩)

/-- The character set argument of the name strip on line 35 of
src/zebra/__main__.py. -/
def deviceForSet : String := "device for "

/-- One line of `__main__.Zebra.installed_printers`
(src/zebra/__main__.py lines 26-36): marker-free lines contribute
nothing; on a marked line with no URI match, `re.search(...)[0]`
subscripts `None` (`TypeError`); otherwise the entry is the strip-set
name before the first colon mapped to the URI match. -/
def installedEntry (device : String) : PyRes (Option (String × String)) :=
  match markerHit device with
  | true =>
    match reSearchUsbS device with
    | none => .exn .typeError
    | some uri =>
      .ok (some (pyStripSet (beforeFirstColon device) deviceForSet, uri))
  | false => .ok none

/-- `__main__.Zebra.installed_printers` on a given `lpstat -v` stdout
(src/zebra/__main__.py lines 21-38). -/
def installed_printers (stdout : String) : PyRes (List (String × String)) :=
  (pySplitlines stdout).foldl
    (fun acc device =>
      match acc with
      | .ok m =>
        match installedEntry device with
        | .ok (some (n, u)) => .ok (upsertBy m n u)
        | .ok none => .ok m
        | .exn e => .exn e
        | .hang => .hang
      | other => other) (.ok [])

/-- `__main__.system_command` (src/zebra/__main__.py lines 6-15) runs
`subprocess.run` with no exception handling: a raising spawn escapes to
the caller, so `installed_printers` propagates it. -/
def installed_printersRun (w : World) : PyRes (List (String × String)) :=
  match w.lpstatExec with
  | .raised => .exn .osError
  | .completed _ out _ => installed_printers out

end Spec2Proof

namespace Spec2Proof

/-! ## Concrete worlds used by witnesses and counterexamples -/

/-- A baseline world: every command completes with status 0 and empty
output, `/dev/usb` is empty, no environment bindings, no operator
input. -/
def W0 : World :=
  { lpinfoExec := .completed 0 "" ""
    lpstatExec := .completed 0 "" ""
    devUsb := some []
    udevadmInfo := fun _ => .completed 0 "" ""
    udevadmGrep := fun _ _ => 1
    catRead := fun _ => (0, "", "")
    lsusbPipe := ""
    rulesFileExists := true
    osEnv := fun _ => none
    appEnv := fun _ => none
    opInputs := [] }

/-- The install scenario of the end-to-end claim: one connected device
with serial `ABC123`, no installed queue, lsusb reporting `0a5f:0164`,
operator answering `r` (regular / primary). -/
def W1 : World :=
  { W0 with
    lpinfoExec :=
      .completed 0 "direct usb://Zebra%20Technologies/ZTC%20ZT410?serial=ABC123" ""
    lsusbPipe := "0a5f:0164"
    opInputs := ["r"] }

/-- A world with two connected Zebra devices (ambiguous install). -/
def W6 : World :=
  { W0 with
    lpinfoExec :=
      .completed 0 "direct usb://Zebra?serial=1\ndirect usb://Zebra?serial=2" "" }

/-- A world where both enumeration commands fail to spawn. -/
def W4 : World := { W0 with lpinfoExec := .raised, lpstatExec := .raised }

/-- A world where `/dev/usb` holds `lp0` and `lp1` and the attribute
dump of BOTH contains the serial (grep exits 0 for every probe). -/
def Wc7 : World :=
  { W0 with
    lpstatExec := .completed 0 "Zebra-X-SN9: uri\n" ""
    devUsb := some ["lp0", "lp1"]
    udevadmGrep := fun _ _ => 0 }

/-- The session `Zebra.__init__` builds in `Wc7` for serial `SN9`. -/
def sessC7 : Session :=
  { serial_number := "SN9", name := some "Zebra-X-SN9", vid := "", pid := "",
    lp_path := some "/dev/usb/lp1" }

/-- A world whose connected-device listing holds exactly one Zebra
line. -/
def Wc9 : World :=
  { W0 with
    lpinfoExec :=
      .completed 0 "direct usb://Zebra%20Technologies/ZTC%20ZT410?serial=SN1" "" }

/-- The single-entry enumeration map produced in `Wc9`. -/
def cpC9 : List (String × PrinterRec) :=
  [("SN1",
    { uri := "usb://Zebra%20Technologies/ZTC%20ZT410?serial=SN1", lp := "",
      name := "", sn := "SN1", installedSet := false, installed := none })]

/-- A world with a malformed persisted printer binding. -/
def Wc10 : World :=
  { W0 with osEnv := fun k => if k = "MFG_PRINTER" then some "ABC" else none }

/-- The queue names registered in an effect trace. -/
def installedQueueNames (effs : List Effect) : List String :=
  effs.filterMap (fun e =>
    match e with
    | .registerQueue n _ => some n
    | _ => none)

/-! ## Helper lemmas -/

theorem prefixOfL_self_append (p r : List Char) : prefixOfL p (p ++ r) = true := by
  induction p with
  | nil => rfl
  | cons a t ih => simp [prefixOfL, ih]

theorem prefixOfL_iff_exists (p l : List Char) :
    prefixOfL p l = true ↔ ∃ r, l = p ++ r := by
  induction p generalizing l with
  | nil => simp [prefixOfL]
  | cons a t ih =>
    cases l with
    | nil => simp [prefixOfL]
    | cons b bs =>
      simp only [prefixOfL, Bool.and_eq_true, beq_iff_eq, ih, List.cons_append]
      constructor
      · rintro ⟨hab, r, hr⟩
        exact ⟨r, by rw [hab, hr]⟩
      · rintro ⟨r, hr⟩
        injection hr with h1 h2
        exact ⟨h1.symm, r, h2⟩

theorem prefixOfL_append_of_le (pat x y : List Char)
    (hl : pat.length ≤ x.length) :
    prefixOfL pat (x ++ y) = prefixOfL pat x := by
  induction pat generalizing x with
  | nil => simp [prefixOfL]
  | cons a p ih =>
    cases x with
    | nil => simp at hl
    | cons b t =>
      have ht : p.length ≤ t.length := by
        simp only [List.length_cons] at hl
        omega
      simp only [List.cons_append, prefixOfL, List.append_eq, ih t ht]

theorem reSearchUsb_append (p t : List Char)
    (h : containsSeq (p ++ "usb:/".data) usbPat = false) :
    reSearchUsb (p ++ usbPat ++ t)
      = some (usbPat ++ t.takeWhile (fun x => x != ' ')) := by
  induction p with
  | nil => rfl
  | cons a pl ih =>
    have hsplit : (prefixOfL usbPat ((a :: pl) ++ "usb:/".data)
        || containsSeq (pl ++ "usb:/".data) usbPat) = false := h
    rw [Bool.or_eq_false_iff] at hsplit
    obtain ⟨h1, h2⟩ := hsplit
    have hform : (a :: pl) ++ usbPat ++ t
        = ((a :: pl) ++ "usb:/".data) ++ ('/' :: t) := by
      rw [List.append_assoc, List.append_assoc]
      rfl
    have hlen : usbPat.length ≤ ((a :: pl) ++ "usb:/".data).length := by
      have e1 : usbPat.length = 6 := rfl
      have e2 : ("usb:/".data).length = 5 := rfl
      rw [e1, List.length_append, e2, List.length_cons]
      omega
    have hcond : prefixOfL usbPat ((a :: pl) ++ usbPat ++ t) = false := by
      rw [hform, prefixOfL_append_of_le _ _ _ hlen]
      exact h1
    show reSearchUsb (a :: (pl ++ usbPat ++ t)) = _
    simp only [reSearchUsb]
    rw [if_neg (by simpa using hcond)]
    exact ih h2

theorem find?_append_some {α : Type} (p : α → Bool) (l1 l2 : List α) (x : α)
    (h : l1.find? p = some x) : (l1 ++ l2).find? p = some x := by
  induction l1 with
  | nil => simp [List.find?] at h
  | cons a t ih =>
    by_cases hp : p a = true
    · rw [List.find?_cons_of_pos _ hp] at h
      rw [List.cons_append, List.find?_cons_of_pos _ hp]
      exact h
    · rw [List.find?_cons_of_neg _ (by simpa using hp)] at h
      rw [List.cons_append, List.find?_cons_of_neg _ (by simpa using hp)]
      exact ih h

theorem find?_append_none {α : Type} (p : α → Bool) (l1 l2 : List α)
    (h : l1.find? p = none) : (l1 ++ l2).find? p = l2.find? p := by
  induction l1 with
  | nil => rfl
  | cons a t ih =>
    by_cases hp : p a = true
    · rw [List.find?_cons_of_pos _ hp] at h
      exact (nomatch h)
    · rw [List.find?_cons_of_neg _ (by simpa using hp)] at h
      rw [List.cons_append, List.find?_cons_of_neg _ (by simpa using hp)]
      exact ih h

theorem foldl_overwrite {α β : Type} (pred : α → Bool) (g : α → β)
    (fs : List α) (a : Option β) :
    fs.foldl (fun acc f => if pred f then some (g f) else acc) a
      = ((fs.reverse.find? pred).map (fun f => some (g f))).getD a := by
  induction fs generalizing a with
  | nil => rfl
  | cons f fs ih =>
    rw [List.foldl_cons, ih, List.reverse_cons]
    cases hf : fs.reverse.find? pred with
    | some x =>
      rw [find?_append_some pred _ [f] x hf]
      rfl
    | none =>
      rw [find?_append_none pred _ [f] hf]
      by_cases hp : pred f = true
      · rw [List.find?_cons_of_pos _ hp]
        simp [hp]
      · rw [List.find?_cons_of_neg _ (by simpa using hp)]
        simp [hp]

theorem map_some_getD_none {α β : Type} (o : Option α) (g : α → β) :
    ((o.map (fun x => some (g x))).getD none) = o.map g := by
  cases o <;> rfl

end Spec2Proof
namespace Spec2Proof

/-! ## Claim theorems -/

/-- C1 counterexample: in the one-device `ABC123` scenario the install
flow registers the queue `Zebra-Technologies-ZTC-ZT410-ABC123` (the full
hyphen-normalised URI path followed by the serial), not the claimed
`ZTC-ZT410-ABC123`; no queue of the claimed name is registered. -/
theorem install_queue_name_cex :
    installedQueueNames (Zebra.install W1).2
      = ["Zebra-Technologies-ZTC-ZT410-ABC123"] ∧
    ("Zebra-Technologies-ZTC-ZT410-ABC123" : String) ≠ "ZTC-ZT410-ABC123" :=
  ⟨rfl, by decide⟩

/-- C1 (amended): given exactly one connected Zebra device with URI
`usb://Zebra%20Technologies/ZTC%20ZT410?serial=ABC123`, serial `ABC123`
absent from the installed-queue listing, lsusb reporting `0a5f:0164`,
and the operator selecting the primary role, `install_printer` registers
the queue `Zebra-Technologies-ZTC-ZT410-ABC123` with that URI, restarts
cups, and persists `ABC123-0a5f-0164` under `MFG_PRINTER`, in that
order, then test-prints. -/
theorem install_scenario_amended :
    Zebra.install W1 = (.ok true,
      [Effect.registerQueue "Zebra-Technologies-ZTC-ZT410-ABC123"
         "usb://Zebra%20Technologies/ZTC%20ZT410?serial=ABC123",
       Effect.restartCups, Effect.sleepMs 2000,
       Effect.setEnvVar "MFG_PRINTER" "ABC123-0a5f-0164",
       Effect.testPrint "ABC123" "0a5f" "0164"]) := rfl

/-- C2 counterexample: the parser drops the LAST multi-space field
(`[:-1]`), so the line `"20.0  DARKNESS"` contributes nothing (one field
remains), `"  12  PRINT WIDTH  "` contributes nothing, and a
four-field line such as `"1.0  A  B  C"` DOES contribute (`B ↦ "A"`). -/
theorem config_parser_cex :
    Zebra.configLineEntry "20.0  DARKNESS" = none ∧
    Zebra.configLineEntry "  12  PRINT WIDTH  " = none ∧
    Zebra.configLineEntry "1.0  A  B  C" = some ("B", PyVal.str "A") :=
  ⟨rfl, rfl, rfl⟩

/-- C2 (amended): the table parser first splits on double spaces, drops
empty fields, then drops the last remaining field; a line therefore
needs a trailing extra field for an entry to be produced:
`"20.0  DARKNESS  x"` maps to `DARKNESS ↦ 20.0` and
`"  12  PRINT WIDTH  x"` maps to `PRINT WIDTH ↦ 12.0`, while the bare
lines `"20.0  DARKNESS"` and `"  12  PRINT WIDTH  "` contribute
nothing, and any line with five or more fields after the split-and-filter
(four or more after the drop) contributes nothing. -/
theorem config_parser_amended :
    Zebra.configLineEntry "20.0  DARKNESS  x" = some ("DARKNESS", PyVal.num 20 0) ∧
    Zebra.configLineEntry "  12  PRINT WIDTH  x" = some ("PRINT WIDTH", PyVal.num 12 0) ∧
    Zebra.configLineEntry "20.0  DARKNESS" = none ∧
    Zebra.configLineEntry "  12  PRINT WIDTH  " = none ∧
    (∀ line : String,
      5 ≤ ((pySplit line "  ").filter (fun v => v != "")).length →
      Zebra.configLineEntry line = none) := by
  refine ⟨rfl, rfl, rfl, rfl, ?_⟩
  intro line h
  have hlen : 4 ≤ (((pySplit line "  ").filter (fun v => v != "")).dropLast).length := by
    rw [List.length_dropLast]
    omega
  unfold Zebra.configLineEntry
  rcases hv : ((pySplit line "  ").filter (fun v => v != "")).dropLast with
    _ | ⟨a, _ | ⟨b, _ | ⟨c, _ | ⟨d, r⟩⟩⟩⟩ <;>
    rw [hv] at hlen <;>
    simp only [List.length_nil, List.length_cons] at hlen <;>
    first
      | rfl
      | omega

/-- C2 witness for the universally quantified conjunct: a six-field line
is ignored. -/
theorem config_parser_amended_witness :
    5 ≤ ((pySplit "1  2  3  4  5  6" "  ").filter (fun v => v != "")).length ∧
    Zebra.configLineEntry "1  2  3  4  5  6" = none :=
  ⟨by decide, config_parser_amended.2.2.2.2 "1  2  3  4  5  6" (by decide)⟩

/-- C3: for every session device path and every world (hence every read
status/payload the oracle can produce), `get_config` returns `None`
whenever the raw status of the `^XA^HH^XZ` exchange differs from 124. -/
theorem get_config_status_guard (lp : Option String) (w : World)
    (h : ((Zebra.command lp "^XA^HH^XZ" w).1).1 ≠ 124) :
    Zebra.get_config lp w = .ok none := by
  unfold Zebra.get_config
  rw [if_neg h]

/-- C3 witness: a session with no device path exchanges with status -1,
and `get_config` yields `None`. -/
theorem get_config_status_guard_witness :
    ((Zebra.command (none : Option String) "^XA^HH^XZ" W0).1).1 ≠ 124 ∧
    Zebra.get_config none W0 = .ok none :=
  ⟨by decide, get_config_status_guard none W0 (by decide)⟩

/-- C4 counterexample: when the `lpinfo`/`lpstat` invocations fail to
spawn, `connected_printers` raises `AttributeError` (the swallowed
failure leaves stdout `None` and `.strip()` is called on it) instead of
returning an empty map, and `installed_printers` propagates the spawn
failure of its uncaught runner. -/
theorem enumeration_failure_cex :
    Zebra.connected_printers W4 = .exn .attributeError ∧
    Zebra.connected_printers W4 ≠ .ok [] ∧
    installed_printersRun W4 = .exn .osError :=
  ⟨rfl, by decide, rfl⟩

/-- C4 (amended): `system_command` itself converts a raised invocation
into `(-1, None, None)` without propagating; but `connected_printers`
then calls `.strip()` on the `None` stdout and raises `AttributeError`,
and the installed-queue listing uses a runner with no handler at all, so
enumeration failure surfaces as an exception, not as an empty map. -/
theorem enumeration_failure_amended (w : World) :
    (systemCommand ExecOutcome.raised = (-1, none, none)) ∧
    (w.lpinfoExec = ExecOutcome.raised →
      Zebra.connected_printers w = .exn .attributeError) ∧
    (w.lpstatExec = ExecOutcome.raised →
      installed_printersRun w = .exn .osError) := by
  refine ⟨rfl, fun h => ?_, fun h => ?_⟩
  · unfold Zebra.connected_printers
    rw [h]
    rfl
  · unfold installed_printersRun
    rw [h]

/-- C4 witness: the amended behaviour at the concrete failing world. -/
theorem enumeration_failure_amended_witness :
    Zebra.connected_printers W4 = .exn .attributeError ∧
    installed_printersRun W4 = .exn .osError :=
  ⟨(enumeration_failure_amended W4).2.1 rfl,
   (enumeration_failure_amended W4).2.2 rfl⟩

/-- C5: `command` fails fast with `(-1, None, None)` and no I/O when the
session has no resolved device path; otherwise it writes `^XA^XZ` to the
node, sleeps 100 ms, writes the payload, reads the node back through a
separate 1 s-bounded invocation, in that order, and returns that read's
status and captured text. -/
theorem command_protocol (zpl : String) (w : World) :
    (Zebra.command none zpl w = ((-1, none, none), [])) ∧
    (∀ p : String, Zebra.command (some p) zpl w =
      (((w.catRead p).1, some (w.catRead p).2.1, some (w.catRead p).2.2),
       [Effect.writeDev p "^XA^XZ", Effect.sleepMs 100,
        Effect.writeDev p zpl, Effect.readDev p 1000])) :=
  ⟨rfl, fun _ => rfl⟩

/-- C6: whenever the connected-device listing contains zero Zebra-marked
lines, or more than one, `install_printer` returns `False` with an empty
effect trace: no queue registration, no environment write. -/
theorem install_unique_guard (w : World) (out : String)
    (h1 : (systemCommand w.lpinfoExec).2.1 = some out)
    (h2 : (Zebra.zebraLines out).length ≠ 1) :
    Zebra.install w = (.ok false, []) := by
  have hb : Zebra.install w = Zebra.installBody out w := by
    unfold Zebra.install
    rw [h1]
  rw [hb]
  unfold Zebra.installBody
  rcases hz : Zebra.zebraLines out with _ | ⟨a, _ | ⟨b, t⟩⟩
  · rfl
  · exact absurd (by rw [hz]; rfl) h2
  · rfl

/-- C6 witness: zero devices (`W0`) and two devices (`W6`) both abort
with `False` and no effects. -/
theorem install_unique_guard_witness :
    Zebra.install W0 = (.ok false, []) ∧ Zebra.install W6 = (.ok false, []) :=
  ⟨install_unique_guard W0 "" rfl (by decide),
   install_unique_guard W6
     "direct usb://Zebra?serial=1\ndirect usb://Zebra?serial=2" rfl (by decide)⟩

/-- C7 counterexample: with `/dev/usb` entries `lp0` and `lp1` both
matching the serial, `__init__` resolves the LAST entry `lp1`, not the
first (`lp0`) as the claim states: the loop has no `break`, so later
matches overwrite. -/
theorem device_path_first_match_cex :
    Zebra.init "SN9" "" "" Wc7 = .ok sessC7 ∧
    sessC7.lp_path ≠ some "/dev/usb/lp0" :=
  ⟨rfl, by decide⟩

/-- C7 (amended): for every serial, device-path resolution at session
construction scans the USB line-printer directory entries and selects
the LAST entry (first in reversed listing order) that starts with `lp`
and whose attribute-dump grep for the serial exits 0; if the directory
does not exist, the `FileNotFoundError` is caught and the device path
stays empty rather than raising. -/
theorem device_path_resolution_amended (w : World) (sn vid pid : String)
    (sess : Session) (h : Zebra.init sn vid pid w = .ok sess) :
    (w.devUsb = none → sess.lp_path = none) ∧
    (∀ fs, w.devUsb = some fs →
      sess.lp_path = (fs.reverse.find?
          (fun f => startsWithL f "lp" && (w.udevadmGrep f sess.serial_number == 0))).map
        (fun f => "/dev/usb/" ++ f)) := by
  have hs : sess.lp_path = Zebra.lpResolve sess.serial_number w := by
    unfold Zebra.init at h
    cases hr : Zebra.resolveSerial sn vid pid w with
    | exn e => rw [hr] at h; exact (nomatch h)
    | hang => rw [hr] at h; exact (nomatch h)
    | ok trip =>
      obtain ⟨s, v, p⟩ := trip
      rw [hr] at h
      have h2 : (match Zebra.getPrinterName w s with
          | PyRes.exn e => PyRes.exn e
          | PyRes.hang => PyRes.hang
          | PyRes.ok nm =>
            PyRes.ok { serial_number := s, name := nm, vid := v, pid := p,
                       lp_path := Zebra.lpResolve s w }) = PyRes.ok sess := h
      cases hn : Zebra.getPrinterName w s with
      | exn e => rw [hn] at h2; exact (nomatch h2)
      | hang => rw [hn] at h2; exact (nomatch h2)
      | ok nm =>
        rw [hn] at h2
        injection h2 with h3
        rw [← h3]
  constructor
  · intro hdev
    rw [hs]
    unfold Zebra.lpResolve
    rw [hdev]
  · intro fs hdev
    rw [hs]
    unfold Zebra.lpResolve
    rw [hdev]
    exact (foldl_overwrite _ _ fs none).trans (map_some_getD_none _ _)

/-- C7 witness: the amended resolution at the two-entry world picks
`lp1`. -/
theorem device_path_resolution_amended_witness :
    Zebra.init "SN9" "" "" Wc7 = .ok sessC7 ∧
    sessC7.lp_path = ((["lp0", "lp1"].reverse.find?
        (fun f => startsWithL f "lp" && (Wc7.udevadmGrep f sessC7.serial_number == 0))).map
      (fun f => "/dev/usb/" ++ f)) :=
  ⟨rfl, (device_path_resolution_amended Wc7 "SN9" "" "" sessC7 rfl).2 ["lp0", "lp1"] rfl⟩

/-- C8 counterexample: on the line
`device for red-ZTC: usb://Zebra/a\tb?serial=X` the listing extracts the
name `-ZTC` (str.strip removes any leading/trailing characters of the
SET `device for `, eating `red`), not the prefix-stripped `red-ZTC`, and
the extracted URI runs through the tab (only a space terminates the
regex match) instead of stopping at the first whitespace. -/
theorem installed_listing_cex :
    installed_printers "device for red-ZTC: usb://Zebra/a\tb?serial=X"
      = .ok [("-ZTC", "usb://Zebra/a\tb?serial=X")] ∧
    ("-ZTC" : String) ≠ "red-ZTC" :=
  ⟨rfl, by decide⟩

/-- C8 (amended): on every listing line containing a marker token and
`usb://`, the entry's URI is the exact substring from the first
`usb://` up to the next SPACE character (U+0020; tabs and other
whitespace are included in the match), and the name is the substring
before the first colon with any leading and trailing characters drawn
from the character set of `"device for "` removed (a str.strip with a
set, which equals prefix-stripping only when the remaining name neither
starts nor ends with one of those characters). -/
theorem installed_listing_amended (pre tail : String)
    (hm : markerHit (pre ++ "usb://" ++ tail) = true)
    (hp : containsSeq (pre.data ++ "usb:/".data) usbPat = false) :
    installedEntry (pre ++ "usb://" ++ tail)
      = .ok (some
          (pyStripSet (beforeFirstColon (pre ++ "usb://" ++ tail)) deviceForSet,
           "usb://" ++ (⟨tail.data.takeWhile (fun x => x != ' ')⟩ : String))) := by
  have hsearch : reSearchUsbS (pre ++ "usb://" ++ tail)
      = some ("usb://" ++ (⟨tail.data.takeWhile (fun x => x != ' ')⟩ : String)) := by
    unfold reSearchUsbS
    have hdata : (pre ++ "usb://" ++ tail).data = pre.data ++ usbPat ++ tail.data := by
      cases pre
      cases tail
      rfl
    rw [hdata, reSearchUsb_append pre.data tail.data hp]
    rfl
  unfold installedEntry
  rw [hm, hsearch]

/-- C8 witness: the amended extraction at a concrete line. -/
theorem installed_listing_amended_witness :
    markerHit ("device for P1: " ++ "usb://" ++ "Zebra?serial=J1 x") = true ∧
    installedEntry ("device for P1: " ++ "usb://" ++ "Zebra?serial=J1 x")
      = .ok (some ("P1", "usb://Zebra?serial=J1")) := by
  refine ⟨rfl, ?_⟩
  rw [installed_listing_amended "device for P1: " "Zebra?serial=J1 x" rfl rfl]
  rfl

/-- C9: in every state where the connected-printer enumeration returns a
one-entry map, `choose_printer` raises `TypeError`: `next(iter(dict))`
yields the serial KEY (a string), and subscripting it with `"sn"` is a
string-by-string subscript.  The documented single-printer no-prompt
path never returns successfully. -/
theorem choose_printer_single_raises (w : World)
    (cp : List (String × PrinterRec))
    (h1 : Zebra.connected_printers w = .ok cp) (h2 : cp.length = 1) :
    Zebra.choose_printer w = .exn .typeError := by
  unfold Zebra.choose_printer
  rw [h1]
  rcases cp with _ | ⟨x, _ | ⟨y, t⟩⟩
  · simp at h2
  · rfl
  · simp at h2

/-- C9 witness: the concrete one-printer world raises `TypeError`. -/
theorem choose_printer_single_raises_witness :
    Zebra.connected_printers Wc9 = .ok cpC9 ∧
    Zebra.choose_printer Wc9 = .exn .typeError :=
  ⟨rfl, choose_printer_single_raises Wc9 cpC9 rfl rfl⟩

/-- C10: `connect` returns `None` when the role key is absent from the
process environment (the `KeyError` is caught), but a present value
that does not split on `-` into exactly three fields raises an uncaught
`ValueError` instead of yielding `None`. -/
theorem connect_malformed_binding (w : World) :
    (w.osEnv "MFG_PRINTER" = none →
      Zebra.connect "MFG_PRINTER" w = .ok none) ∧
    (∀ v, w.osEnv "MFG_PRINTER" = some v → (pySplit v "-").length ≠ 3 →
      Zebra.connect "MFG_PRINTER" w = .exn .valueError) := by
  constructor
  · intro h
    unfold Zebra.connect Zebra.connectBody
    rw [h]
  · intro v hv hlen
    have hb : Zebra.connectBody "MFG_PRINTER" w = Zebra.connectTriple v w := by
      unfold Zebra.connectBody
      rw [hv]
    unfold Zebra.connect
    rw [hb]
    unfold Zebra.connectTriple
    rcases hs : pySplit v "-" with _ | ⟨a, _ | ⟨b, _ | ⟨c, _ | ⟨d, r⟩⟩⟩⟩
    · rfl
    · rfl
    · rfl
    · exact absurd (by rw [hs]; rfl) hlen
    · rfl

/-- C10 witness: absent binding gives `None`; the malformed binding
`"ABC"` raises `ValueError`. -/
theorem connect_malformed_binding_witness :
    Zebra.connect "MFG_PRINTER" W0 = .ok none ∧
    Zebra.connect "MFG_PRINTER" Wc10 = .exn .valueError :=
  ⟨(connect_malformed_binding W0).1 rfl,
   (connect_malformed_binding Wc10).2 "ABC" rfl (by decide)⟩

end Spec2Proof
